import Mathlib

/-!
Shallow embedding of `src/I2Ctest/I2Ctest.h` (AuroraRoboticsLab/I2Ctest).

The header defines three plain data layouts and one size constant:

* `typedef unsigned char I2C_byte;`
* `typedef int16_t I2C_length;`
* `#define I2C_limit_brief 16`
* `typedef I2C_byte I2C_data_brief[I2C_limit_brief];`
* `struct I2C_transaction_generic { I2C_byte addr; I2C_length n_write;
    I2C_length n_read; I2C_byte write[]; };`
* `struct I2C_transaction_brief { I2C_byte addr; I2C_length n_write;
    I2C_length n_read; I2C_data_brief write; };`
* `struct I2C_test_brief { I2C_transaction_brief tx; I2C_data_brief expect; };`

We embed the value semantics of these types (machine integers as bounded
naturals/integers, the fixed array as a length-indexed list, the flexible
array member as an arbitrary-length list), a field-layout description used
for shape claims, a model of the preprocessor lines of the header
(include guard and the `#define` of `I2C_limit_brief`), and a model of
C99/C++ type-name resolution for the names the header uses.
-/

namespace I2Ctest

/-- `typedef unsigned char I2C_byte;` — an 8-bit unsigned value
(values 0..255). -/
def I2C_byte := Fin 256

/-- Conversion on assignment into an `unsigned char` field: C semantics
reduce the value modulo 2^8 (C11 6.3.1.3p2). -/
def toByte (n : Nat) : I2C_byte := ⟨n % 256, Nat.mod_lt _ (by decide)⟩

/-- `typedef int16_t I2C_length;` — a 16-bit signed value
(twos-complement range -32768..32767). -/
def I2C_length := { z : Int // -32768 ≤ z ∧ z < 32768 }

/-- Build an `I2C_length` from an in-range integer. -/
def toLength (z : Int) (h1 : -32768 ≤ z) (h2 : z < 32768) : I2C_length :=
  ⟨z, h1, h2⟩

/-- `#define I2C_limit_brief 16` — the fixed capacity of "brief" byte
arrays. -/
def I2C_limit_brief : Nat := 16

/-- `typedef I2C_byte I2C_data_brief[I2C_limit_brief];` — a fixed array of
exactly `I2C_limit_brief` bytes. -/
def I2C_data_brief := { l : List I2C_byte // l.length = I2C_limit_brief }

/-- `struct I2C_transaction_generic`: address, write count, read count, and
a flexible array member `I2C_byte write[]` whose extent is chosen by the
caller at allocation time (embedded as a list of arbitrary length). -/
structure I2C_transaction_generic where
  addr : I2C_byte
  n_write : I2C_length
  n_read : I2C_length
  write : List I2C_byte

/-- `struct I2C_transaction_brief`: the same three leading fields, with the
write payload stored in a fixed-capacity `I2C_data_brief` buffer. -/
structure I2C_transaction_brief where
  addr : I2C_byte
  n_write : I2C_length
  n_read : I2C_length
  write : I2C_data_brief

/-- `struct I2C_test_brief`: one brief transaction held by value, plus a
fixed-capacity buffer of expected read-back data. -/
structure I2C_test_brief where
  tx : I2C_transaction_brief
  expect : I2C_data_brief

/-! ## Field-layout description

A descriptor of each struct field's storage, transcribed from the header:
bit width and signedness for scalar fields, element width (and capacity)
for array fields, and nested record fields. -/

/-- Storage of one struct field in the header's layout. -/
inductive FieldStorage where
  | scalar (bits : Nat) (signed : Bool)
  | flexArray (elemBits : Nat)
  | fixedArray (elemBits : Nat) (capacity : Nat)
  | record (fields : List (String × FieldStorage))

/-- Fields of `struct I2C_transaction_generic`, in declaration order:
`I2C_byte addr; I2C_length n_write; I2C_length n_read; I2C_byte write[];`. -/
def genericFields : List (String × FieldStorage) :=
  [("addr", .scalar 8 false),
   ("n_write", .scalar 16 true),
   ("n_read", .scalar 16 true),
   ("write", .flexArray 8)]

/-- Fields of `struct I2C_transaction_brief` with the brief-array capacity
left as a parameter (the header writes the capacity as the macro
`I2C_limit_brief`, never as a literal). -/
def briefFieldsAt (limit : Nat) : List (String × FieldStorage) :=
  [("addr", .scalar 8 false),
   ("n_write", .scalar 16 true),
   ("n_read", .scalar 16 true),
   ("write", .fixedArray 8 limit)]

/-- Fields of `struct I2C_transaction_brief` at the default capacity. -/
def briefFields : List (String × FieldStorage) := briefFieldsAt I2C_limit_brief

/-- Fields of `struct I2C_test_brief` with the brief-array capacity left as
a parameter: `I2C_transaction_brief tx; I2C_data_brief expect;`. -/
def testFieldsAt (limit : Nat) : List (String × FieldStorage) :=
  [("tx", .record (briefFieldsAt limit)),
   ("expect", .fixedArray 8 limit)]

/-- Fields of `struct I2C_test_brief` at the default capacity. -/
def testFields : List (String × FieldStorage) := testFieldsAt I2C_limit_brief

/-- C1: the generic and brief transaction layouts have the same three
leading fields in the same order and widths — an 8-bit `addr`, a 16-bit
signed `n_write`, a 16-bit signed `n_read` — and differ only in the fourth
field, the write payload: a variable-length trailing byte sequence in the
generic form versus a fixed-capacity 16-byte embedded buffer in the brief
form. -/
theorem c1_shared_leading_fields :
    genericFields.take 3 = briefFields.take 3 ∧
    genericFields.take 3 =
      [("addr", .scalar 8 false),
       ("n_write", .scalar 16 true),
       ("n_read", .scalar 16 true)] ∧
    genericFields.drop 3 = [("write", .flexArray 8)] ∧
    briefFields.drop 3 = [("write", .fixedArray 8 16)] :=
  ⟨rfl, rfl, rfl, rfl⟩

/-- C3: the byte type holds exactly the values 0 through 255: every byte
value is at most 255, and assigning any value 0..255 stores it unchanged
(no sign extension or conversion surprise). -/
theorem c3_byte_exactly_0_to_255 :
    (∀ b : I2C_byte, b.val ≤ 255) ∧
    (∀ n : Nat, n ≤ 255 → (toByte n).val = n) := by
  constructor
  · intro b
    exact Nat.le_of_lt_succ b.isLt
  · intro n hn
    simp only [toByte]
    omega

/-- C3 witness: assigning 200 to a byte field stores exactly 200. -/
theorem c3_witness : (toByte 200).val = 200 :=
  c3_byte_exactly_0_to_255.2 200 (by decide)

/-- C4: the length type holds the full 16-bit signed range: every length
value lies in -32768..32767, and every integer in that range (negative
counts included) is representable. -/
theorem c4_length_full_range :
    (∀ l : I2C_length, -32768 ≤ l.val ∧ l.val ≤ 32767) ∧
    (∀ z : Int, -32768 ≤ z → z ≤ 32767 → ∃ l : I2C_length, l.val = z) := by
  constructor
  · intro l
    obtain ⟨h1, h2⟩ := l.property
    omega
  · intro z h1 h2
    exact ⟨toLength z h1 (by omega), rfl⟩

/-- C4 witness: the negative count -5 is representable in a length field. -/
theorem c4_witness : ∃ l : I2C_length, l.val = -5 :=
  c4_length_full_range.2 (-5) (by decide) (by decide)

/-! ## Generic-transaction invariant and brief-form totality -/

/-- The documented well-formedness of a generic transaction: the count is
non-negative and the trailing flexible array holds exactly `n_write`
bytes. -/
def WF_generic (t : I2C_transaction_generic) : Prop :=
  0 ≤ t.n_write.val ∧ t.write.length = t.n_write.val.toNat

/-- A concrete all-zero fixed brief buffer. -/
def zeroData : I2C_data_brief :=
  ⟨List.replicate 16 (toByte 0), by decide⟩

/-- C5: in the generic form the write payload is a variable-length sequence
whose length equals the write count exactly: every well-formed generic
transaction stores `n_write` bytes, and any payload (of any length the
16-bit count can record) is stored whole, with the count equal to its exact
length — no implicit truncation. -/
theorem c5_generic_length_exact :
    (∀ t : I2C_transaction_generic,
      WF_generic t → (t.write.length : Int) = t.n_write.val) ∧
    (∀ (a : I2C_byte) (r : I2C_length) (payload : List I2C_byte),
      payload.length < 32768 →
      ∃ t : I2C_transaction_generic, WF_generic t ∧ t.addr = a ∧
        t.n_read = r ∧ t.write = payload ∧
        t.n_write.val = payload.length) := by
  constructor
  · intro t ht
    obtain ⟨h0, hlen⟩ := ht
    omega
  · intro a r payload hlen
    refine ⟨⟨a, toLength payload.length (by omega) (by exact_mod_cast hlen),
      r, payload⟩, ⟨by simp [toLength], by simp [toLength]⟩, rfl, rfl, rfl, rfl⟩

/-- C5 witness: a concrete three-byte payload is stored exactly, with
write count 3. -/
theorem c5_witness :
    ∃ t : I2C_transaction_generic, WF_generic t ∧ t.addr = toByte 80 ∧
      t.n_read = toLength 0 (by decide) (by decide) ∧
      t.write = [toByte 1, toByte 2, toByte 3] ∧ t.n_write.val = 3 := by
  have h := c5_generic_length_exact.2 (toByte 80)
    (toLength 0 (by decide) (by decide)) [toByte 1, toByte 2, toByte 3]
    (by decide)
  simpa using h

/-- C6: the brief form performs no bounds check and nothing can fail at
construction: for every combination of address, counts and buffer — the
count exceeding the capacity 16 or even negative — a brief transaction with
exactly those fields exists. Violating `n_write ≤ 16` is not detected. -/
theorem c6_brief_no_validation :
    (∀ (a : I2C_byte) (w r : I2C_length) (buf : I2C_data_brief),
      ∃ t : I2C_transaction_brief,
        t.addr = a ∧ t.n_write = w ∧ t.n_read = r ∧ t.write = buf) ∧
    (∃ t : I2C_transaction_brief, t.n_write.val = 17) ∧
    (∃ t : I2C_transaction_brief, t.n_write.val = -1) := by
  refine ⟨fun a w r buf => ⟨⟨a, w, r, buf⟩, rfl, rfl, rfl, rfl⟩, ?_, ?_⟩
  · exact ⟨⟨toByte 0, toLength 17 (by decide) (by decide),
      toLength 0 (by decide) (by decide), zeroData⟩, rfl⟩
  · exact ⟨⟨toByte 0, toLength (-1) (by decide) (by decide),
      toLength 0 (by decide) (by decide), zeroData⟩, rfl⟩

/-- C7: a brief test is exactly the pairing of one brief transaction, held
by value, with one fixed-capacity 16-byte expect buffer: for each such pair
there is a unique test holding it (so each test owns its own copy and is
fully determined by its two components), and every test's expect buffer has
exactly 16 entries. -/
theorem c7_test_brief_is_pair :
    (∀ (tr : I2C_transaction_brief) (e : I2C_data_brief),
      ∃! t : I2C_test_brief, t.tx = tr ∧ t.expect = e) ∧
    (∀ t : I2C_test_brief, t.expect.val.length = 16) := by
  constructor
  · intro tr e
    refine ⟨⟨tr, e⟩, ⟨rfl, rfl⟩, ?_⟩
    rintro ⟨tx, ex⟩ ⟨h1, h2⟩
    cases h1
    cases h2
    rfl
  · intro t
    exact t.expect.property

/-! ## Payload semantics of the fixed-capacity buffers

The header defines no operations; the meaning of the buffers is the
documented convention that only the first `n_write` (resp. `n_read`)
entries are significant. We formalise that convention over the embedded
layout. -/

/-- The payload of a brief transaction: the first `n_write` entries of its
fixed write buffer. -/
def payload_brief (t : I2C_transaction_brief) : List I2C_byte :=
  t.write.val.take t.n_write.val.toNat

/-- The expected read-back data of a brief test: the first `n_read` entries
of its fixed expect buffer. -/
def expected_data (ts : I2C_test_brief) : List I2C_byte :=
  ts.expect.val.take ts.tx.n_read.val.toNat

/-- C8: for a brief transaction with `n_write = k` (0 ≤ k ≤ 16), the
payload is exactly the first k entries of the write buffer, and for a brief
test with `n_read = k`, the expected data is exactly the first k entries of
the expect buffer; in both cases the result has exactly k entries and does
not depend on any buffer entry beyond index k. -/
theorem c8_first_k_entries (k : Nat) (hk : k ≤ 16)
    (t : I2C_transaction_brief) (ht : t.n_write.val = (k : Int))
    (ts : I2C_test_brief) (hr : ts.tx.n_read.val = (k : Int)) :
    (payload_brief t).length = k ∧
    payload_brief t = t.write.val.take k ∧
    (expected_data ts).length = k ∧
    expected_data ts = ts.expect.val.take k ∧
    (∀ t2 : I2C_transaction_brief, t2.n_write.val = (k : Int) →
      t2.write.val.take k = t.write.val.take k →
      payload_brief t2 = payload_brief t) := by
  have hwlen : t.write.val.length = 16 := t.write.property
  have helen : ts.expect.val.length = 16 := ts.expect.property
  have htk : t.n_write.val.toNat = k := by omega
  have hrk : ts.tx.n_read.val.toNat = k := by omega
  refine ⟨?_, ?_, ?_, ?_, ?_⟩
  · simp [payload_brief, htk, hwlen]
    omega
  · simp [payload_brief, htk]
  · simp [expected_data, hrk, helen]
    omega
  · simp [expected_data, hrk]
  · intro t2 h2 hpre
    have h2k : t2.n_write.val.toNat = k := by omega
    simp [payload_brief, h2k, htk, hpre]

/-- A concrete brief transaction used to instantiate general theorems:
address 0x50, write count 2, read count 2, all-zero buffer. -/
def briefT0 : I2C_transaction_brief :=
  ⟨toByte 80, toLength 2 (by decide) (by decide),
   toLength 2 (by decide) (by decide), zeroData⟩

/-- C7 witness: a concrete brief test has an expect buffer of exactly 16
entries. -/
theorem c7_witness :
    (I2C_test_brief.mk briefT0 zeroData).expect.val.length = 16 :=
  c7_test_brief_is_pair.2 (I2C_test_brief.mk briefT0 zeroData)

/-- C8 witness: for a concrete transaction and test with counts 2, the
payload and expected data are the first two buffer entries. -/
theorem c8_witness :
    (payload_brief briefT0).length = 2 ∧
    payload_brief briefT0 = briefT0.write.val.take 2 ∧
    (expected_data (I2C_test_brief.mk briefT0 zeroData)).length = 2 ∧
    expected_data (I2C_test_brief.mk briefT0 zeroData) =
      (I2C_test_brief.mk briefT0 zeroData).expect.val.take 2 ∧
    (∀ t2 : I2C_transaction_brief, t2.n_write.val = ((2 : Nat) : Int) →
      t2.write.val.take 2 = briefT0.write.val.take 2 →
      payload_brief t2 = payload_brief briefT0) :=
  c8_first_k_entries 2 (by decide) briefT0 (by decide)
    (I2C_test_brief.mk briefT0 zeroData) (by decide)

/-! ## Preprocessor model: the include guard and the capacity constant

The header's preprocessor-visible content, transcribed:

* line 7: an `#ifndef` include guard on `__I2CTEST_I2CTEST_H`;
* line 8: `#define __I2CTEST_I2CTEST_H 1`;
* line 18: `#define I2C_limit_brief 16` — unconditional, not wrapped in its
  own `#ifndef`;
* line 45: `#endif`.

A `#define` of a name already defined as an object-like constant with a
different body is a C constraint violation (C11 6.10.3p2), modelled as an
error. -/

/-- The two object-like constants the header defines. -/
inductive PPName where
  | includeGuard
  | limitBrief
  deriving DecidableEq

/-- Preprocessor state: the defined constants with their numeric bodies,
and how many times the header's declarations have been emitted into the
translation unit. -/
structure PPState where
  defs : List (PPName × Nat)
  emitted : Nat
  deriving DecidableEq

/-- Look up the current body of a defined constant. -/
def getDef : List (PPName × Nat) → PPName → Option Nat
  | [], _ => none
  | (k, v) :: rest, n => if n = k then some v else getDef rest n

/-- One `#define name value` directive: an error if `name` is already
defined with a different body (C11 6.10.3p2), a no-op if already defined
identically, and otherwise records the definition. -/
def ppDefine (s : PPState) (n : PPName) (v : Nat) : Except Unit PPState :=
  match getDef s.defs n with
  | some v0 => if v0 = v then .ok s else .error ()
  | none => .ok { s with defs := (n, v) :: s.defs }

/-- Processing one inclusion of the header: if the guard constant is
defined the whole body is skipped; otherwise the guard and
`I2C_limit_brief` are defined and the type declarations are emitted. -/
def processHeader (s : PPState) : Except Unit PPState :=
  match getDef s.defs PPName.includeGuard with
  | some _ => .ok s
  | none =>
    match ppDefine s PPName.includeGuard 1 with
    | .error e => .error e
    | .ok s1 =>
      match ppDefine s1 PPName.limitBrief 16 with
      | .error e => .error e
      | .ok s2 => .ok { s2 with defs := s2.defs, emitted := s2.emitted + 1 }

/-- C2 counterexample: the capacity constant is not overridable at build
time. Pre-defining `I2C_limit_brief` as 32 on the command line (the
build-time override mechanism) makes the header's own unguarded
`#define I2C_limit_brief 16` an invalid macro redefinition, instead of
producing buffers of capacity 32. -/
theorem c2_counterexample :
    processHeader { defs := [(PPName.limitBrief, 32)], emitted := 0 } =
      .error () := rfl

/-- C2 (amended): the capacity is a single named constant defaulting to 16,
and every fixed-capacity buffer in the layout — the brief write buffer, the
test's embedded transaction, and the expect buffer — is sized by that one
constant, so changing its definition to a positive N resizes all of them to
N consistently; but because the `#define` is unguarded, a build-time
(command-line) override is an invalid redefinition rather than an effective
override. -/
theorem c2_capacity_constant (N : Nat) (_hN : 0 < N) :
    I2C_limit_brief = 16 ∧
    (briefFieldsAt N).drop 3 = [("write", .fixedArray 8 N)] ∧
    (testFieldsAt N).take 1 = [("tx", .record (briefFieldsAt N))] ∧
    (testFieldsAt N).drop 1 = [("expect", .fixedArray 8 N)] ∧
    briefFields = briefFieldsAt I2C_limit_brief ∧
    testFields = testFieldsAt I2C_limit_brief :=
  ⟨rfl, rfl, rfl, rfl, rfl, rfl⟩

/-- C2 witness: instantiated at the override value N = 32. -/
theorem c2_witness :
    I2C_limit_brief = 16 ∧
    (briefFieldsAt 32).drop 3 = [("write", .fixedArray 8 32)] ∧
    (testFieldsAt 32).take 1 = [("tx", .record (briefFieldsAt 32))] ∧
    (testFieldsAt 32).drop 1 = [("expect", .fixedArray 8 32)] ∧
    briefFields = briefFieldsAt I2C_limit_brief ∧
    testFields = testFieldsAt I2C_limit_brief :=
  c2_capacity_constant 32 (by decide)

/-- C10: a second inclusion of the header contributes nothing: once one
inclusion has succeeded, processing the header again leaves the state —
defined constants and emitted declarations — exactly as it was. -/
theorem c10_second_inclusion_noop (s t : PPState)
    (h : processHeader s = .ok t) : processHeader t = .ok t := by
  have hguard : ∃ v, getDef t.defs PPName.includeGuard = some v := by
    cases hg : getDef s.defs PPName.includeGuard with
    | some v =>
      refine ⟨v, ?_⟩
      simp only [processHeader, hg] at h
      cases h
      exact hg
    | none =>
      cases hl : getDef s.defs PPName.limitBrief with
      | some v0 =>
        by_cases hv : v0 = 16
        · simp [processHeader, ppDefine, hg, getDef, hl, hv] at h
          cases h
          simp [getDef]
        · simp [processHeader, ppDefine, hg, getDef, hl, hv] at h
      | none =>
        simp [processHeader, ppDefine, hg, getDef, hl] at h
        cases h
        simp [getDef]
  obtain ⟨v, hv⟩ := hguard
  simp only [processHeader, hv]

/-- C10 witness: including the header into an empty translation unit and
then including it a second time changes nothing. -/
theorem c10_witness :
    processHeader
      { defs := [(PPName.limitBrief, 16), (PPName.includeGuard, 1)],
        emitted := 1 } =
    .ok { defs := [(PPName.limitBrief, 16), (PPName.includeGuard, 1)],
          emitted := 1 } :=
  c10_second_inclusion_noop { defs := [], emitted := 0 }
    { defs := [(PPName.limitBrief, 16), (PPName.includeGuard, 1)],
      emitted := 1 } rfl

/-! ## C99 / C++ type-name resolution for the names the header uses

The header (which has no `#include` lines) names these types: the builtin
`unsigned char`; `int16_t` (declared nowhere in the header); the typedef
names it introduces; and, in the `tx` field of `struct I2C_test_brief`
(line 41), the bare name `I2C_transaction_brief` written without the
`struct` keyword and without any typedef. In C99 a bare name resolves only
in the ordinary (typedef/builtin) name space; `struct X` resolves in the
tag name space. In C++ a struct declaration also injects its name as a
type name, so the bare tag resolves. -/

/-- The type names occurring in the header. -/
inductive CName where
  | unsignedChar
  | int16_t
  | I2C_byte
  | I2C_length
  | I2C_data_brief
  | I2C_transaction_generic
  | I2C_transaction_brief
  | I2C_test_brief
  deriving DecidableEq

/-- A reference to a type name, recording whether it is written with the
`struct` keyword. -/
structure TypeRef where
  name : CName
  viaStructKeyword : Bool
  deriving DecidableEq

/-- A type declaration of the header: a typedef (whose underlying type
references one name) or a struct definition (whose fields reference one
name each, in order). -/
inductive CDecl where
  | typedefDecl (newName : CName) (underlying : TypeRef)
  | structDecl (tag : CName) (fieldTypes : List TypeRef)

/-- The header's type declarations, transcribed in source order. Every
type reference in the header is written WITHOUT the `struct` keyword. -/
def headerDecls : List CDecl :=
  [.typedefDecl .I2C_byte ⟨.unsignedChar, false⟩,
   .typedefDecl .I2C_length ⟨.int16_t, false⟩,
   .typedefDecl .I2C_data_brief ⟨.I2C_byte, false⟩,
   .structDecl .I2C_transaction_generic
     [⟨.I2C_byte, false⟩, ⟨.I2C_length, false⟩, ⟨.I2C_length, false⟩,
      ⟨.I2C_byte, false⟩],
   .structDecl .I2C_transaction_brief
     [⟨.I2C_byte, false⟩, ⟨.I2C_length, false⟩, ⟨.I2C_length, false⟩,
      ⟨.I2C_data_brief, false⟩],
   .structDecl .I2C_test_brief
     [⟨.I2C_transaction_brief, false⟩, ⟨.I2C_data_brief, false⟩]]

/-- The two languages the header's comment says it compiles under. -/
inductive Lang where
  | c99
  | cpp
  deriving DecidableEq

/-- Names in scope: the ordinary name space (builtins, typedef names, and
in C++ also injected struct names looked up through `tags`) and the struct
tag name space. -/
structure Scope where
  ordinary : List CName
  tags : List CName

/-- Whether one type reference resolves in the given language and scope. -/
def resolveRef (lang : Lang) (sc : Scope) (r : TypeRef) : Bool :=
  if r.viaStructKeyword then sc.tags.contains r.name
  else
    match lang with
    | .c99 => sc.ordinary.contains r.name
    | .cpp => sc.ordinary.contains r.name || sc.tags.contains r.name

/-- Process the declarations in order, returning the first type name that
fails to resolve (or `none` if all resolve). Typedefs add their new name to
the ordinary name space; struct definitions add their tag to the tag name
space (visible to their own fields and to later declarations). -/
def checkDecls (lang : Lang) : Scope → List CDecl → Option CName
  | _, [] => none
  | sc, .typedefDecl n u :: rest =>
    if resolveRef lang sc u then
      checkDecls lang { sc with ordinary := n :: sc.ordinary } rest
    else some u.name
  | sc, .structDecl tag fts :: rest =>
    let sc2 : Scope := { sc with tags := tag :: sc.tags }
    match fts.find? (fun r => !(resolveRef lang sc2 r)) with
    | some r => some r.name
    | none => checkDecls lang sc2 rest

/-- Check the whole header in a translation unit whose ordinary name space
holds the builtin `unsigned char` plus whatever `ambient` names the
including file declared before the header (e.g. `int16_t` when the includer
included a standard integer header first; the header itself includes
nothing). -/
def checkHeader (lang : Lang) (ambient : List CName) : Option CName :=
  checkDecls lang ⟨CName.unsignedChar :: ambient, []⟩ headerDecls

/-- C9: the header is NOT well-formed under C99 translation rules. Taken
alone, `int16_t` resolves in neither language (the header includes no other
headers); and even with `int16_t` supplied by the includer, C99 still
rejects the `tx` field of `struct I2C_test_brief`, whose type is the bare
name `I2C_transaction_brief` — only the struct tag exists and no typedef is
declared. Under C++ (with `int16_t` in scope) every name resolves. -/
theorem c9_c99_resolution_fails :
    checkHeader Lang.c99 [] = some CName.int16_t ∧
    checkHeader Lang.c99 [CName.int16_t] = some CName.I2C_transaction_brief ∧
    checkHeader Lang.cpp [] = some CName.int16_t ∧
    checkHeader Lang.cpp [CName.int16_t] = none := by
  refine ⟨rfl, rfl, rfl, rfl⟩

end I2Ctest
